import Mathlib

/-!
Shallow embedding of the `result-enum` library (Result / Option containers
for JavaScript, dist/result.js + option.js + async.js).

JavaScript values are modelled by `JSVal`.  Since the library classifies
values only through `instanceof Error`, `Error.isPrototypeOf`, `typeof`,
truthiness, and strict equality with the absence symbol, an object is
modelled by two prototype-chain facts (`ObjMeta`) plus its `message`
string.  Result and Option instances are object values carrying their
contained value (`vResult` / `vOption`); their prototype chains contain
neither `Error.prototype` nor the `Error` constructor.

Methods that can throw are translated to `Except JSVal α`, where
`Except.error e` models `throw e`.  Promises are modelled by their
settlement: `Except JSVal JSVal` (rejected value / resolved value), and
`await` by matching on the settlement, which is how the async adapters
are embedded.
-/

/-- Prototype-chain facts of a JavaScript object that the library inspects:
whether `Error.prototype` is in the prototype chain of the object (this is
exactly `obj instanceof Error`, since `Error` has no custom hasInstance),
and whether the `Error` constructor function itself is in the chain
(this is exactly `Error.isPrototypeOf(obj)`). -/
structure ObjMeta where
  errProtoInChain : Bool
  errCtorInChain : Bool
  deriving Repr, DecidableEq

/-- JavaScript values, as far as the library observes them.
`vObj meta msg` is a non-container, non-function object with prototype
facts `meta` and `message` property `msg` (empty when irrelevant).
`vResult w` is a `Result` instance with `this.val = w`; `vOption w` is an
`Option` instance with `this.val = w`. -/
inductive JSVal where
  | vNull
  | vUndef
  | vBool (b : Bool)
  | vNum (n : Int)
  | vStr (s : String)
  | vSym (id : Nat)
  | vObj (meta : ObjMeta) (msg : String)
  | vResult (w : JSVal)
  | vOption (w : JSVal)
  deriving Repr, DecidableEq

namespace JSVal

/-- JavaScript truthiness (`Boolean(v)`).  Objects are always truthy. -/
def truthy : JSVal → Bool
  | vNull => false
  | vUndef => false
  | vBool b => b
  | vNum n => n != 0
  | vStr s => s != ""
  | vSym _ => true
  | vObj _ _ => true
  | vResult _ => true
  | vOption _ => true

/-- Models `typeof v === "object"`.  Note `typeof null === "object"` in JavaScript;
symbols have `typeof "symbol"`, so they are not objects here. -/
def typeofIsObject : JSVal → Bool
  | vNull => true
  | vObj _ _ => true
  | vResult _ => true
  | vOption _ => true
  | _ => false

/-- Models `v instanceof Error`: `Error.prototype` occurs in the prototype chain of
`v` (false on all primitives).  Result/Option instances have chain
`Result.prototype/Option.prototype → Object.prototype`, so false. -/
def instanceofError : JSVal → Bool
  | vObj meta _ => meta.errProtoInChain
  | _ => false

/-- Models `Error.isPrototypeOf(v)`: the `Error` constructor function itself occurs
in the prototype chain of `v`. -/
def errorCtorInChain : JSVal → Bool
  | vObj meta _ => meta.errCtorInChain
  | _ => false

/-- JavaScript `a || b`: returns `a` if truthy, else `b`. -/
def jsOr (a b : JSVal) : JSVal := if truthy a then a else b

/-- JavaScript `a && b`: returns `b` if `a` is truthy, else `a`. -/
def jsAnd (a b : JSVal) : JSVal := if truthy a then b else a

/-- A freshly constructed `new Error(msg)`: an object whose chain holds
`Error.prototype` (so `instanceof Error` is true) but not the `Error`
constructor, with `message` set to `msg`. -/
def newError (msg : String) : JSVal := vObj ⟨true, false⟩ msg

/-- The `message` property as read on the few places the library reads it
(always on error objects there); `""` elsewhere. -/
def msgOf : JSVal → String
  | vObj _ m => m
  | _ => ""

end JSVal

open JSVal

/-- The exported absence sentinel: `export const none = Symbol("None")`.
Modelled as the distinguished symbol with id 0; the freshness of
`Symbol("None")` means no wrapped domain value is this symbol. -/
def noneSym : JSVal := vSym 0

namespace ResultC

/-- Models `Result.prototype.isErr`, the raw returned JavaScript value of
`this.val instanceof Error || (this.val && typeof this.val === "object" &&
Error.isPrototypeOf(this.val))` — note this is not always a boolean
(e.g. it is `0` when `this.val` is `0`). -/
def isErrRaw (val : JSVal) : JSVal :=
  jsOr (vBool (instanceofError val))
    (jsAnd (jsAnd val (vBool (typeofIsObject val))) (vBool (errorCtorInChain val)))

/-- Models `Result.prototype.isOk`: `!(this.val instanceof Error || (this.val &&
typeof this.val === "object" && Error.isPrototypeOf(this.val)))` — the same
expression as `isErr`, coerced and negated by `!`. -/
def isOk (val : JSVal) : Bool :=
  ! truthy (jsOr (vBool (instanceofError val))
    (jsAnd (jsAnd val (vBool (typeofIsObject val))) (vBool (errorCtorInChain val))))

/-- The truthiness of the value returned by `isErr()`: how every `if (this.isErr())`
in the library observes it. -/
def isErr (val : JSVal) : Bool := truthy (isErrRaw val)

/-- Models `formatError(err)`: sets `err.stack` from `err.message` and the contained
stack or message of the contained value, then throws `err`.  Stack traces are outside the
model; the thrown error keeps the message of `err` joined with the contained
message of that value (the "best available diagnostic" chain, format
non-normative per the design notes). -/
def formatError (val : JSVal) (errMsg : String) : Except JSVal JSVal :=
  Except.error (newError (errMsg ++ ": " ++ msgOf val))

/-- Models `expect(msg)`: throws (via `formatError`) when `isErr()`, else returns
`this.val`. -/
def expect (val : JSVal) (msg : String) : Except JSVal JSVal :=
  if isErr val then formatError val msg else Except.ok val

/-- Models `expectErr(msg)`: throws (via `formatError`) when `isOk()`, else returns
`this.val`. -/
def expectErr (val : JSVal) (msg : String) : Except JSVal JSVal :=
  if isOk val then formatError val msg else Except.ok val

/-- The `name` property as read in the message template of `unwrap`
(`Unwrap called on ${this.val.name}`); error objects answer "Error",
the `name` lookup on other values is abstracted to `""` (content never
observed by the library). -/
def jsName (val : JSVal) : String :=
  if instanceofError val then "Error" else ""

/-- Models `unwrap()`: throws (via `formatError`) when `isErr()`, else returns
`this.val`. -/
def unwrap (val : JSVal) : Except JSVal JSVal :=
  if isErr val then formatError val ("Unwrap called on " ++ jsName val)
  else Except.ok val

/-- Models `unwrapErr()`: throws `new Error(...)` when `isOk()`, else returns
`this.val`. -/
def unwrapErr (val : JSVal) : Except JSVal JSVal :=
  if isOk val then Except.error (newError ("UnwrapError called on value - " ++ msgOf val))
  else Except.ok val

/-- Models `unwrapOr(fallback)`: `fallback` when `isErr()`, else `this.val`. -/
def unwrapOr (val fallback : JSVal) : Except JSVal JSVal :=
  Except.ok (if isErr val then fallback else val)

/-- Models `unwrapOrElse(fn)`: `fn(this.val)` when `isErr()`, else `this.val`. -/
def unwrapOrElse (val : JSVal) (fn : JSVal → JSVal) : Except JSVal JSVal :=
  Except.ok (if isErr val then fn val else val)

/-- Models `map(fn)`: `new Result(fn(this.val))` when `isOk()`, else returns `this`
(the same container). -/
def map (val : JSVal) (fn : JSVal → JSVal) : Except JSVal JSVal :=
  Except.ok (if isOk val then vResult (fn val) else vResult val)

/-- Models `mapErr(fn)`: returns `this` when `isOk()`, else `new Result(fn(this.val))`. -/
def mapErr (val : JSVal) (fn : JSVal → JSVal) : Except JSVal JSVal :=
  Except.ok (if isOk val then vResult val else vResult (fn val))

/-- Models `mapOr(fallback, fn)`: `fn(this.val)` when `isOk()`, else `fallback`. -/
def mapOr (val fallback : JSVal) (fn : JSVal → JSVal) : Except JSVal JSVal :=
  Except.ok (if isOk val then fn val else fallback)

/-- Models `or(or)`: returns `this` when `isOk()`, else the supplied alternative
container. -/
def or (val alt : JSVal) : Except JSVal JSVal :=
  Except.ok (if isOk val then vResult val else alt)

/-- Models `ok()`: `Some(this.val)` when `isOk()`, else `None()` — both construct a
new Option instance. -/
def ok (val : JSVal) : Except JSVal JSVal :=
  Except.ok (if isOk val then vOption val else vOption noneSym)

/-- Models `peek()`: returns `this.val`. -/
def peek (val : JSVal) : Except JSVal JSVal := Except.ok val

/-- Models `throw()`: throws `this.val` when `isErr()`, else does nothing. -/
def throwM (val : JSVal) : Except JSVal Unit :=
  if isErr val then Except.error val else Except.ok ()

/-- Models `flatten()`: returns `this.val` when it is itself a Result instance,
else returns `this`. -/
def flatten (val : JSVal) : Except JSVal JSVal :=
  Except.ok (match val with
    | vResult _ => val
    | _ => vResult val)

/-- Models `Result.from(fn)`: `try { return new Result(fn()) } catch (e) { return
new Result(e) }` — the thrown value is stored as-is; nothing after the
catch can throw, so the adapter always returns a Result. -/
def fromFn (fn : Unit → Except JSVal JSVal) : JSVal :=
  match fn () with
  | Except.ok v => vResult v
  | Except.error e => vResult e

/-- Models `Result.fromAsync(fn)`: awaits `fn()` inside the same try/catch; the
promise settlement produced by `fn` is the argument of the match. -/
def fromAsync (fn : Unit → Except JSVal JSVal) : JSVal :=
  match fn () with
  | Except.ok v => vResult v
  | Except.error e => vResult e

end ResultC

/-- The factory `Ok(input)`: `new Result(input)`. -/
def OkF (input : JSVal) : JSVal := vResult input

/-- The failure value derived by `Err` from its argument:
`typeof input === "string"` yields `new Error(input)`, any other argument
is kept as-is. -/
def errDerived : JSVal → JSVal
  | vStr s => newError s
  | input => input

/-- The factory `Err(input)`: `new Result` of the derived failure value. -/
def ErrF (input : JSVal) : JSVal := vResult (errDerived input)

/-- Models `Result.partition(input)`: `input.reduce` pushing `e.unwrap()` onto `ok`
when `e.isOk()` and `e.unwrapErr()` onto `err` otherwise.  Calling the
methods on a non-Result element throws a TypeError. -/
def partitionStep (acc : List JSVal × List JSVal) (e : JSVal) :
    Except JSVal (List JSVal × List JSVal) :=
  match e with
  | vResult w =>
      if ResultC.isOk w then do
        let v ← ResultC.unwrap w
        Except.ok (acc.1 ++ [v], acc.2)
      else do
        let v ← ResultC.unwrapErr w
        Except.ok (acc.1, acc.2 ++ [v])
  | _ => Except.error (newError "e.isOk is not a function")

/-- Models `Result.partition(input)` itself: the reduce with initial accumulator
`{ ok: [], err: [] }`. -/
def partition (input : List JSVal) : Except JSVal (List JSVal × List JSVal) :=
  input.foldlM partitionStep ([], [])

/-- The standalone async adapter (src/async.ts): awaits an in-flight promise
`fn`; `Ok(data)` on resolution, `Err(error)` on rejection.  The promise is
modelled by its settlement. -/
def asyncAdapter (p : Except JSVal JSVal) : JSVal :=
  match p with
  | Except.ok d => OkF d
  | Except.error e => ErrF e

namespace OptionC

/-- Models `Option.prototype.isSome`: `this.val !== none`. -/
def isSome (val : JSVal) : Bool := val != noneSym

/-- Models `Option.prototype.isNone`: `this.val === none`. -/
def isNone (val : JSVal) : Bool := val == noneSym

/-- Models `expect(msg)`: throws `new Error(msg)` when `isNone()`, else returns
`this.val`. -/
def expect (val : JSVal) (msg : String) : Except JSVal JSVal :=
  if isNone val then Except.error (newError msg) else Except.ok val

/-- Models `unwrap()`: throws `new Error("Unwrap called on None")` when `isNone()`,
else returns `this.val`. -/
def unwrap (val : JSVal) : Except JSVal JSVal :=
  if isNone val then Except.error (newError "Unwrap called on None")
  else Except.ok val

/-- Models `unwrapOr(fallback)`: `fallback` when `isNone()`, else `this.val`. -/
def unwrapOr (val fallback : JSVal) : Except JSVal JSVal :=
  Except.ok (if isNone val then fallback else val)

/-- Models `unwrapOrElse(fn)`: `fn()` when `isNone()`, else `this.val`. -/
def unwrapOrElse (val : JSVal) (fn : Unit → JSVal) : Except JSVal JSVal :=
  Except.ok (if isNone val then fn () else val)

/-- Models `map(fn)`: `new Option(fn(this.val))` when `isSome()`, else returns
`this`. -/
def map (val : JSVal) (fn : JSVal → JSVal) : Except JSVal JSVal :=
  Except.ok (if isSome val then vOption (fn val) else vOption val)

/-- Models `mapOr(fallback, fn)`: `fn(this.val)` when `isSome()`, else `fallback`. -/
def mapOr (val fallback : JSVal) (fn : JSVal → JSVal) : Except JSVal JSVal :=
  Except.ok (if isSome val then fn val else fallback)

/-- Models `or(or)`: returns `this` when `isSome()`, else the supplied alternative
container. -/
def or (val alt : JSVal) : Except JSVal JSVal :=
  Except.ok (if isSome val then vOption val else alt)

/-- Models `okOr(err)`: `Ok(this.val)` when `isSome()`, else `Err(err)`. -/
def okOr (val err : JSVal) : Except JSVal JSVal :=
  Except.ok (if isSome val then OkF val else ErrF err)

/-- Models `peek()`: returns `this.val`. -/
def peek (val : JSVal) : Except JSVal JSVal := Except.ok val

/-- Models `flatten()`: returns `this.val` when it is itself an Option instance,
else returns `this`. -/
def flatten (val : JSVal) : Except JSVal JSVal :=
  Except.ok (match val with
    | vOption _ => val
    | _ => vOption val)

/-- Models `Option.from(fn)`: runs `fn()` with no try/catch — a throw propagates —
then wraps `null`/`undefined` as `new Option(none)` and any other return
as `new Option(result)`. -/
def fromFn (fn : Unit → Except JSVal JSVal) : Except JSVal JSVal := do
  let result ← fn ()
  if result == vNull || result == vUndef then
    Except.ok (vOption noneSym)
  else
    Except.ok (vOption result)

/-- Models `Option.fromAsync(fn)`: same body with `await fn()`; the settlement of
the promise produced by `fn` is bound, and a rejection propagates as a
rejected promise (an `Except.error`). -/
def fromAsync (fn : Unit → Except JSVal JSVal) : Except JSVal JSVal := do
  let result ← fn ()
  if result == vNull || result == vUndef then
    Except.ok (vOption noneSym)
  else
    Except.ok (vOption result)

end OptionC

/-- The factory `Some(input)`: `new Option(input)`. -/
def SomeF (input : JSVal) : JSVal := vOption input

/-- The factory `None()`: `new Option(none)`. -/
def NoneF : JSVal := vOption noneSym

/-- Method lookup `instance.isOk` followed by the call: defined on Result
instances; on every other object the call throws a TypeError (`isOk` is
looked up as `undefined` and then called). -/
def methodIsOk : JSVal → Except JSVal JSVal
  | vResult w => Except.ok (vBool (ResultC.isOk w))
  | _ => Except.error (newError "instance.isOk is not a function")

/-- Method lookup-and-call for `isErr` (returns the raw, possibly
non-boolean value). -/
def methodIsErr : JSVal → Except JSVal JSVal
  | vResult w => Except.ok (ResultC.isErrRaw w)
  | _ => Except.error (newError "instance.isErr is not a function")

/-- Method lookup-and-call for `isSome`. -/
def methodIsSome : JSVal → Except JSVal JSVal
  | vOption w => Except.ok (vBool (OptionC.isSome w))
  | _ => Except.error (newError "instance.isSome is not a function")

/-- Method lookup-and-call for `isNone`. -/
def methodIsNone : JSVal → Except JSVal JSVal
  | vOption w => Except.ok (vBool (OptionC.isNone w))
  | _ => Except.error (newError "instance.isNone is not a function")

/-- The shared shape of the four registered `Symbol.hasInstance` hooks:
`(instance) => { if (typeof instance !== "object") return false; return
instance?.isOk() || false; }`.  The optional chain only guards
`null`/`undefined` (and `undefined` is already rejected by the `typeof`
test); on any other object the method call itself may throw. -/
def hasInstanceHook (method : JSVal → Except JSVal JSVal) (inst : JSVal) :
    Except JSVal JSVal :=
  if ! typeofIsObject inst then Except.ok (vBool false)
  else if inst == vNull then Except.ok vUndef |>.map (fun u => jsOr u (vBool false))
  else do
    let r ← method inst
    Except.ok (jsOr r (vBool false))

/-- The hook registered on `Ok`. -/
def OkHasInstance : JSVal → Except JSVal JSVal := hasInstanceHook methodIsOk

/-- The hook registered on `Err`. -/
def ErrHasInstance : JSVal → Except JSVal JSVal := hasInstanceHook methodIsErr

/-- The hook registered on `Some`. -/
def SomeHasInstance : JSVal → Except JSVal JSVal := hasInstanceHook methodIsSome

/-- The hook registered on `None`. -/
def NoneHasInstance : JSVal → Except JSVal JSVal := hasInstanceHook methodIsNone

/-- The value carried out of a try/catch that returns in both arms: the
returned value on normal completion, the thrown value otherwise. -/
def outcomeOf : Except JSVal JSVal → JSVal
  | Except.ok v => v
  | Except.error e => e

/-- Whether a value is a failure-classified Result container. -/
def containerIsErr : JSVal → Bool
  | vResult w => ResultC.isErr w
  | _ => false

/-- Whether a value is a success-classified Result container. -/
def containerIsOk : JSVal → Bool
  | vResult w => ResultC.isOk w
  | _ => false

/-- Whether a value is a present Option container. -/
def containerIsSome : JSVal → Bool
  | vOption w => OptionC.isSome w
  | _ => false

/-- Whether a value is an absent Option container. -/
def containerIsNone : JSVal → Bool
  | vOption w => OptionC.isNone w
  | _ => false

/-- Models `typeof v === "string"`. -/
def isStringVal : JSVal → Bool
  | vStr _ => true
  | _ => false

/-- The chain `Some(v).okOr(e).ok().unwrap()` as the code evaluates it
(`okOr` always yields a Result and `ok` always yields an Option, so the
method-missing arms are unreachable). -/
def roundTrip (v e : JSVal) : Except JSVal JSVal := do
  let r ← OptionC.okOr v e
  match r with
  | vResult w =>
      let o ← ResultC.ok w
      match o with
      | vOption u => OptionC.unwrap u
      | _ => Except.error (newError "unwrap is not a function")
  | _ => Except.error (newError "ok is not a function")

/-- The chain `None().okOr(e).unwrapErr()` as the code evaluates it. -/
def noneOkOrUnwrapErr (e : JSVal) : Except JSVal JSVal := do
  let r ← OptionC.okOr noneSym e
  match r with
  | vResult w => ResultC.unwrapErr w
  | _ => Except.error (newError "unwrapErr is not a function")

/-- Whether a call completed normally (no value was thrown). -/
def returnsNormally : Except JSVal JSVal → Bool
  | Except.ok _ => true
  | Except.error _ => false

/-- Whether a `Unit`-returning call completed normally. -/
def returnsNormallyU : Except JSVal Unit → Bool
  | Except.ok _ => true
  | Except.error _ => false

/-- Spec-side classification, written from the words of the spec for the
refinement comparison of C2: failure iff the value "is an instance of the
host error type" or "is a non-primitive object whose prototype chain
includes the prototype of the host error type".  The second disjunct is the
`errProtoInChain` fact (`Error.prototype` in the chain) on a non-null
object. -/
def specFailureClassified (v : JSVal) : Bool :=
  instanceofError v ||
    (typeofIsObject v && !(v == vNull) &&
      (match v with
       | vObj meta _ => meta.errProtoInChain
       | _ => false))

/-!
Identity-instrumented combinators, for the freshness part of C9.  A live
container is a reference `CRef`: an allocation identity plus the contained
value.  Each operation receives an unused identity `fresh` (distinct from
the identity of every live container); `new Result(...)` / `new Option(...)`
yields a container with identity `fresh`, while `return this` / returning
an argument keeps the identity of that container.
-/

/-- A container reference: allocation identity plus contained value. -/
structure CRef where
  id : Nat
  val : JSVal
  deriving Repr, DecidableEq

/-- Models `Result.prototype.map` with identity accounting. -/
def mapIdR (self : CRef) (fn : JSVal → JSVal) (fresh : Nat) : CRef :=
  if ResultC.isOk self.val then ⟨fresh, fn self.val⟩ else self

/-- Models `Result.prototype.mapErr` with identity accounting. -/
def mapErrIdR (self : CRef) (fn : JSVal → JSVal) (fresh : Nat) : CRef :=
  if ResultC.isOk self.val then self else ⟨fresh, fn self.val⟩

/-- Models `Result.prototype.or` with identity accounting: returns `this` or the
argument container, never allocating. -/
def orIdR (self alt : CRef) : CRef :=
  if ResultC.isOk self.val then self else alt

/-- Models `Result.prototype.ok` with identity accounting: both arms construct a
new Option. -/
def okIdR (self : CRef) (fresh : Nat) : CRef :=
  if ResultC.isOk self.val then ⟨fresh, self.val⟩ else ⟨fresh, noneSym⟩

/-- Models `Option.prototype.map` with identity accounting. -/
def mapIdO (self : CRef) (fn : JSVal → JSVal) (fresh : Nat) : CRef :=
  if OptionC.isSome self.val then ⟨fresh, fn self.val⟩ else self

/-- Models `Option.prototype.or` with identity accounting. -/
def orIdO (self alt : CRef) : CRef :=
  if OptionC.isSome self.val then self else alt

/-- Models `Option.prototype.okOr` with identity accounting: both arms construct a
new Result via `Ok`/`Err`. -/
def okOrIdO (self : CRef) (err : JSVal) (fresh : Nat) : CRef :=
  if OptionC.isSome self.val then ⟨fresh, self.val⟩
  else ⟨fresh, errDerived err⟩

/-! ## Shared lemmas -/

/-- Models `isOk` is the boolean negation of the coerced `isErr`: both methods are
built around the same classification expression. -/
lemma isOk_eq_not_isErr (v : JSVal) : ResultC.isOk v = ! ResultC.isErr v := rfl

/-- The coerced value of the `isErr` expression, characterized by the three
primitive observations it is built from. -/
lemma isErr_characterization (v : JSVal) :
    ResultC.isErr v =
      (instanceofError v || (truthy v && typeofIsObject v && errorCtorInChain v)) := by
  cases v with
  | vNull => rfl
  | vUndef => rfl
  | vBool b => cases b <;> rfl
  | vNum n =>
      by_cases h : n = 0 <;>
        simp [ResultC.isErr, ResultC.isErrRaw, jsOr, jsAnd, truthy, instanceofError,
          typeofIsObject, errorCtorInChain, h]
  | vStr s =>
      by_cases h : s = "" <;>
        simp [ResultC.isErr, ResultC.isErrRaw, jsOr, jsAnd, truthy, instanceofError,
          typeofIsObject, errorCtorInChain, h]
  | vSym id => rfl
  | vObj meta msg =>
      obtain ⟨p, c⟩ := meta
      cases p <;> cases c <;> rfl
  | vResult w => rfl
  | vOption w => rfl

/-- When the raw `isErr` expression is truthy, its value is the boolean
`true` (the only truthy value the expression can produce). -/
lemma isErrRaw_truthy (v : JSVal) (h : ResultC.isErr v = true) :
    ResultC.isErrRaw v = vBool true := by
  rw [isErr_characterization] at h
  cases v with
  | vNull => simp [instanceofError, truthy] at h
  | vUndef => simp [instanceofError, truthy] at h
  | vBool b => simp [instanceofError, typeofIsObject] at h
  | vNum n => simp [instanceofError, typeofIsObject] at h
  | vStr s => simp [instanceofError, typeofIsObject] at h
  | vSym id => simp [instanceofError, typeofIsObject] at h
  | vObj meta msg =>
      obtain ⟨p, c⟩ := meta
      simp [instanceofError, truthy, typeofIsObject, errorCtorInChain] at h
      rcases h with h | h
      · subst h; cases c <;> rfl
      · subst h; cases p <;> rfl
  | vResult w => simp [instanceofError, truthy, typeofIsObject, errorCtorInChain] at h
  | vOption w => simp [instanceofError, truthy, typeofIsObject, errorCtorInChain] at h

/-- One reduce step of `partition` on a Result element: appends the
contained value to the matching output list and never throws (the
extraction is guarded by the same `isOk()` it branches on). -/
lemma partitionStep_result (acc : List JSVal × List JSVal) (w : JSVal) :
    partitionStep acc (vResult w) =
      Except.ok (if ResultC.isOk w then (acc.1 ++ [w], acc.2)
                 else (acc.1, acc.2 ++ [w])) := by
  by_cases h : ResultC.isOk w = true
  · have herr : ResultC.isErr w = false := by
      have := isOk_eq_not_isErr w
      rw [h] at this
      simpa using this.symm
    simp [partitionStep, ResultC.unwrap, h, herr, bind, Except.bind]
  · have hok : ResultC.isOk w = false := by simpa using h
    simp [partitionStep, ResultC.unwrapErr, hok, bind, Except.bind]

/-- The reduce underlying `partition`, for any starting accumulator:
both output lists extend the accumulator with the matching contained
values in input order. -/
lemma partition_foldl (ws : List JSVal) (acc : List JSVal × List JSVal) :
    List.foldlM partitionStep acc (ws.map vResult) =
      Except.ok (acc.1 ++ ws.filter (fun w => ResultC.isOk w),
                 acc.2 ++ ws.filter (fun w => ResultC.isErr w)) := by
  induction ws generalizing acc with
  | nil => simp [pure, Except.pure]
  | cons w ws ih =>
      rw [List.map_cons, List.foldlM_cons, partitionStep_result]
      by_cases h : ResultC.isOk w = true
      · have herr : ResultC.isErr w = false := by
          have := isOk_eq_not_isErr w
          rw [h] at this
          simpa using this.symm
        simp [h, herr, ih, List.filter_cons, List.append_assoc, bind, Except.bind]
      · have hok : ResultC.isOk w = false := by simpa using h
        have herr : ResultC.isErr w = true := by
          have := isOk_eq_not_isErr w
          rw [hok] at this
          simpa using this.symm
        simp [hok, herr, ih, List.filter_cons, List.append_assoc, bind, Except.bind]

/-! ## Claims -/

/-- Claim C10: for every Result container, whatever value it holds and
however it was produced, exactly one classification holds — `isOk()` is
the logical negation of `isErr()` (as the library observes it, i.e. of the
truthiness of the raw `isErr` return value). -/
theorem claim_C10_dichotomy (v : JSVal) :
    ResultC.isOk v = ! ResultC.isErr v ∧
      ResultC.isErr v = truthy (ResultC.isErrRaw v) ∧
      (containerIsOk (vResult v) = true ↔ ¬ containerIsErr (vResult v) = true) := by
  refine ⟨rfl, rfl, ?_⟩
  simp [containerIsOk, containerIsErr, isOk_eq_not_isErr v]

/-- Claim C2 counterexample: an object carrying the `Error` constructor —
but not `Error.prototype` — in its prototype chain (JavaScript `Object.create(Error)`) is failure-classified by the code, although the
condition of the claim (`instanceof Error`, or `Error.prototype` in the chain)
does not hold for it. -/
theorem claim_C2_counterexample :
    ResultC.isErr (vObj ⟨false, true⟩ "") = true ∧
      specFailureClassified (vObj ⟨false, true⟩ "") = false := by
  exact ⟨rfl, rfl⟩

/-- Claim C2 (amended): a contained value is failure-classified iff it is an
instance of the host error type, or it is a truthy value of `typeof`
"object" whose prototype chain contains the *constructor function
itself* of the host error type (not its prototype); `isOk()` is the
negation of `isErr()` on every other value. -/
theorem claim_C2_classification (v : JSVal) :
    ResultC.isErr v =
      (instanceofError v || (truthy v && typeofIsObject v && errorCtorInChain v)) ∧
    ResultC.isOk v = ! ResultC.isErr v :=
  ⟨isErr_characterization v, rfl⟩

/-- Claim C8: `Some(v).isSome()` is true and `Some(v).isNone()` is false for
every value distinct from the absence marker (which every wrapped domain
value is, `null` and `undefined` included, since the marker is a fresh
symbol); `None().isNone()` is true and `None().isSome()` is false; and the
marker differs from `null` and from `undefined`. -/
theorem claim_C8_some_none (v : JSVal) (h : v ≠ noneSym) :
    containerIsSome (SomeF v) = true ∧ containerIsNone (SomeF v) = false ∧
    containerIsNone NoneF = true ∧ containerIsSome NoneF = false ∧
    noneSym ≠ vNull ∧ noneSym ≠ vUndef := by
  refine ⟨?_, ?_, by decide, by decide, by decide, by decide⟩ <;>
    simp [containerIsSome, containerIsNone, SomeF, OptionC.isSome, OptionC.isNone, h]

/-- Claim C8 witness: instantiated at `v = null` — the wrapped value the
claim highlights. -/
theorem claim_C8_witness :
    (vNull ≠ noneSym) ∧
      (containerIsSome (SomeF vNull) = true ∧ containerIsNone (SomeF vNull) = false ∧
       containerIsNone NoneF = true ∧ containerIsSome NoneF = false ∧
       noneSym ≠ vNull ∧ noneSym ≠ vUndef) :=
  ⟨by decide, claim_C8_some_none vNull (by decide)⟩

/-- Claim C1 counterexample: `Result.from(() => { throw 42 })` stores `42`
as-is, and a Result containing `42` is success-classified — `isErr()` is
false, contradicting "yields a failure-classified container" for
non-error thrown values; moreover the standalone async adapter does not
wrap a string rejection as-is but converts it into a new host error. -/
theorem claim_C1_counterexample :
    ResultC.fromFn (fun _ => Except.error (vNum 42)) = vResult (vNum 42) ∧
    containerIsErr (ResultC.fromFn (fun _ => Except.error (vNum 42))) = false ∧
    asyncAdapter (Except.error (vStr "boom")) = vResult (newError "boom") ∧
    newError "boom" ≠ vStr "boom" :=
  ⟨rfl, rfl, rfl, by decide⟩

/-- Claim C1 (amended): the capture adapters always return normally —
`Result.from`/`Result.fromAsync` yield a Result holding the returned or
thrown/rejected value as-is, and the standalone async adapter yields
`Ok(value)` on resolution and `Err(reason)` on rejection, `Err` converting
a string reason into a new host error and keeping every other reason
as-is.  The produced container is failure-classified exactly when the
stored value is error-like per the structural classification — so thrown
host-error instances yield `isErr()` true, but thrown non-error values
(such as `42`) yield a success-classified container. -/
theorem claim_C1_capture_adapters (fn : Unit → Except JSVal JSVal) (e d : JSVal) :
    ResultC.fromFn fn = vResult (outcomeOf (fn ())) ∧
    ResultC.fromAsync fn = vResult (outcomeOf (fn ())) ∧
    containerIsErr (ResultC.fromFn fn) = ResultC.isErr (outcomeOf (fn ())) ∧
    asyncAdapter (Except.ok d) = OkF d ∧
    asyncAdapter (Except.error e) = ErrF e ∧
    ErrF e = vResult (errDerived e) ∧
    errDerived (vStr "boom") = newError "boom" ∧
    containerIsErr (ErrF (vStr "boom")) = true ∧
    containerIsErr (ResultC.fromFn (fun _ => Except.error (newError "x"))) = true := by
  refine ⟨?_, ?_, ?_, rfl, rfl, rfl, rfl, rfl, rfl⟩ <;>
    cases h : fn () <;>
      simp [ResultC.fromFn, ResultC.fromAsync, outcomeOf, containerIsErr, h]

/-- Claim C5: a computation expressed purely through combinators never
throws, whatever the state of the container and for every total caller-supplied
function: `map`, `mapErr`, `mapOr`, `unwrapOr`, `unwrapOrElse`, `or`,
`ok`, `okOr`, `flatten` all return normally on every container of either
type; while the unchecked extractions (`unwrap`, `unwrapErr`, `expect`,
`expectErr`) and `throw()` do raise (witnessed on mismatching states). -/
theorem claim_C5_combinators_never_throw (w fb alt e : JSVal)
    (fn : JSVal → JSVal) (fz : Unit → JSVal) :
    returnsNormally (ResultC.map w fn) = true ∧
    returnsNormally (ResultC.mapErr w fn) = true ∧
    returnsNormally (ResultC.mapOr w fb fn) = true ∧
    returnsNormally (ResultC.unwrapOr w fb) = true ∧
    returnsNormally (ResultC.unwrapOrElse w fn) = true ∧
    returnsNormally (ResultC.or w alt) = true ∧
    returnsNormally (ResultC.ok w) = true ∧
    returnsNormally (ResultC.flatten w) = true ∧
    returnsNormally (OptionC.map w fn) = true ∧
    returnsNormally (OptionC.mapOr w fb fn) = true ∧
    returnsNormally (OptionC.unwrapOr w fb) = true ∧
    returnsNormally (OptionC.unwrapOrElse w fz) = true ∧
    returnsNormally (OptionC.or w alt) = true ∧
    returnsNormally (OptionC.okOr w e) = true ∧
    returnsNormally (OptionC.flatten w) = true ∧
    returnsNormally (ResultC.unwrap (newError "x")) = false ∧
    returnsNormally (ResultC.unwrapErr (vNum 1)) = false ∧
    returnsNormally (ResultC.expect (newError "x") "m") = false ∧
    returnsNormally (ResultC.expectErr (vNum 1) "m") = false ∧
    returnsNormallyU (ResultC.throwM (newError "x")) = false ∧
    returnsNormally (OptionC.unwrap noneSym) = false ∧
    returnsNormally (OptionC.expect noneSym "m") = false :=
  ⟨rfl, rfl, rfl, rfl, rfl, rfl, rfl, rfl, rfl, rfl, rfl, rfl, rfl, rfl, rfl,
   rfl, rfl, rfl, rfl, rfl, rfl, rfl⟩

/-- Claim C7: `Option.from` wraps a `null`/`undefined` return as `None()`
and every other return — zero and the empty string included — as
`Some(result)`; exceptions thrown by the closure are not caught and
propagate, and rejections propagate through `Option.fromAsync` as a
rejected promise. -/
theorem claim_C7_option_from (v e : JSVal) :
    OptionC.fromFn (fun _ => Except.ok v) =
      Except.ok (if v == vNull || v == vUndef then NoneF else SomeF v) ∧
    OptionC.fromAsync (fun _ => Except.ok v) =
      Except.ok (if v == vNull || v == vUndef then NoneF else SomeF v) ∧
    OptionC.fromFn (fun _ => Except.error e) = Except.error e ∧
    OptionC.fromAsync (fun _ => Except.error e) = Except.error e ∧
    OptionC.fromFn (fun _ => Except.ok vNull) = Except.ok NoneF ∧
    containerIsNone NoneF = true ∧
    OptionC.fromFn (fun _ => Except.ok (vNum 0)) = Except.ok (SomeF (vNum 0)) ∧
    containerIsSome (SomeF (vNum 0)) = true ∧
    OptionC.unwrap (vNum 0) = Except.ok (vNum 0) ∧
    OptionC.fromFn (fun _ => Except.ok (vStr "")) = Except.ok (SomeF (vStr "")) ∧
    containerIsSome (SomeF (vStr "")) = true := by
  refine ⟨?_, ?_, rfl, rfl, rfl, rfl, rfl, rfl, rfl, rfl, rfl⟩ <;>
    · simp only [OptionC.fromFn, OptionC.fromAsync, NoneF, SomeF]
      split <;> simp_all [bind, Except.bind]

/-- Claim C6: `partition` walks the array once, appending the contained value of
each element to the successes (in order) or the failures (in order)
according to its classification, with no deduplication; the empty array
gives two empty arrays, and the example of the spec
`[Ok(2), Ok(16), Err("boom")]` gives successes `[2, 16]` and one failure
whose message is `"boom"`. -/
theorem claim_C6_partition (ws : List JSVal) :
    partition (ws.map vResult) =
      Except.ok (ws.filter (fun w => ResultC.isOk w),
                 ws.filter (fun w => ResultC.isErr w)) ∧
    partition [] = Except.ok ([], []) ∧
    partition [OkF (vNum 2), OkF (vNum 16), ErrF (vStr "boom")] =
      Except.ok ([vNum 2, vNum 16], [newError "boom"]) ∧
    msgOf (newError "boom") = "boom" := by
  refine ⟨?_, rfl, rfl, rfl⟩
  simpa using partition_foldl ws ([], [])

/-- Claim C3 counterexample: for the failure-classified wrapped value
`v = new Error("x")` the round trip `Some(v).okOr(e).ok().unwrap()` throws
instead of returning `v` (because `Ok(v)` is failure-classified, `ok()`
yields `None()`); and for the error argument `e = 42` (neither an error
value nor a string) `None().okOr(42)` is not failure-classified. -/
theorem claim_C3_counterexample :
    roundTrip (newError "x") (vStr "boom") =
      Except.error (newError "Unwrap called on None") ∧
    roundTrip (newError "x") (vStr "boom") ≠ Except.ok (newError "x") ∧
    OptionC.okOr noneSym (vNum 42) = Except.ok (vResult (vNum 42)) ∧
    containerIsErr (vResult (vNum 42)) = false :=
  ⟨rfl, fun h => Except.noConfusion h, rfl, rfl⟩

/-- Claim C3 (amended): for every non-absent value `v` that is not itself
failure-classified, and every error argument `e` that is an error value
or a string, `Some(v).okOr(e).ok().unwrap() === v`; `None().okOr(e)` is
failure-classified, and `None().okOr(e).unwrapErr()` is the error derived
from `e` — `e` itself when `e` is an error value, a new host error with
message `e` when `e` is a string. -/
theorem claim_C3_round_trip (v e : JSVal) (hv : v ≠ noneSym)
    (hverr : ResultC.isErr v = false)
    (he : instanceofError e = true ∨ isStringVal e = true) :
    roundTrip v e = Except.ok v ∧
    OptionC.okOr noneSym e = Except.ok (ErrF e) ∧
    containerIsErr (ErrF e) = true ∧
    noneOkOrUnwrapErr e = Except.ok (errDerived e) := by
  have herr : ResultC.isErr (errDerived e) = true := by
    rcases he with he | he
    · have h1 : errDerived e = e := by
        cases e <;> simp_all [instanceofError, errDerived]
      rw [h1, isErr_characterization]
      simp [he]
    · cases e <;> simp_all [isStringVal]
      rfl
  refine ⟨?_, rfl, ?_, ?_⟩
  · simp [roundTrip, OptionC.okOr, OptionC.isSome, bne_iff_ne, hv, OkF, ResultC.ok,
      isOk_eq_not_isErr, hverr, OptionC.unwrap, OptionC.isNone, beq_iff_eq, bind,
      Except.bind]
  · simpa [containerIsErr, ErrF] using herr
  · simp [noneOkOrUnwrapErr, OptionC.okOr, OptionC.isSome, ErrF, ResultC.unwrapErr,
      isOk_eq_not_isErr, herr, bind, Except.bind]

/-- Claim C3 witness: instantiated at the present value `7` and the string
error argument `"boom"`. -/
theorem claim_C3_witness :
    ((vNum 7 : JSVal) ≠ noneSym ∧ ResultC.isErr (vNum 7) = false ∧
      (instanceofError (vStr "boom") = true ∨ isStringVal (vStr "boom") = true)) ∧
    (roundTrip (vNum 7) (vStr "boom") = Except.ok (vNum 7) ∧
     OptionC.okOr noneSym (vStr "boom") = Except.ok (ErrF (vStr "boom")) ∧
     containerIsErr (ErrF (vStr "boom")) = true ∧
     noneOkOrUnwrapErr (vStr "boom") = Except.ok (errDerived (vStr "boom"))) :=
  ⟨⟨by decide, by decide, by decide⟩,
   claim_C3_round_trip (vNum 7) (vStr "boom") (by decide) (by decide) (by decide)⟩




/-- Claim C4 counterexample: applied to a plain object that does not expose
the container shape (no `isOk` method), the hook registered on `Ok` does
not return `false` — the method call in `instance?.isOk()` throws a
TypeError, since the optional chain only guards null/undefined; the hook
registered on `Some` likewise throws on a Result candidate. -/
theorem claim_C4_counterexample :
    OkHasInstance (vObj ⟨false, false⟩ "") =
      Except.error (newError "instance.isOk is not a function") ∧
    SomeHasInstance (vResult (vNum 1)) =
      Except.error (newError "instance.isSome is not a function") :=
  ⟨rfl, rfl⟩

/-- Claim C4 (amended): each hook of each factory returns `false` on every
primitive candidate (where `typeof` is not "object", and on `null`), and
on a container exposing the matching predicate it returns that
report of the predicate normalized to a boolean; but on a non-primitive
candidate that lacks the matching predicate (a plain object, or a
container of the other type) the hook throws a TypeError instead of
returning `false`. -/
theorem claim_C4_membership_hooks (v w : JSVal) (hprim : typeofIsObject v = false) :
    OkHasInstance v = Except.ok (vBool false) ∧
    ErrHasInstance v = Except.ok (vBool false) ∧
    SomeHasInstance v = Except.ok (vBool false) ∧
    NoneHasInstance v = Except.ok (vBool false) ∧
    OkHasInstance vNull = Except.ok (vBool false) ∧
    ErrHasInstance vNull = Except.ok (vBool false) ∧
    SomeHasInstance vNull = Except.ok (vBool false) ∧
    NoneHasInstance vNull = Except.ok (vBool false) ∧
    OkHasInstance (vResult w) = Except.ok (vBool (ResultC.isOk w)) ∧
    ErrHasInstance (vResult w) = Except.ok (vBool (ResultC.isErr w)) ∧
    SomeHasInstance (vOption w) = Except.ok (vBool (OptionC.isSome w)) ∧
    NoneHasInstance (vOption w) = Except.ok (vBool (OptionC.isNone w)) ∧
    OkHasInstance (vOption w) =
      Except.error (newError "instance.isOk is not a function") ∧
    OkHasInstance (vObj ⟨false, false⟩ "") =
      Except.error (newError "instance.isOk is not a function") := by
  refine ⟨?_, ?_, ?_, ?_, rfl, rfl, rfl, rfl, ?_, ?_, ?_, ?_, rfl, rfl⟩
  · simp [OkHasInstance, hasInstanceHook, hprim]
  · simp [ErrHasInstance, hasInstanceHook, hprim]
  · simp [SomeHasInstance, hasInstanceHook, hprim]
  · simp [NoneHasInstance, hasInstanceHook, hprim]
  · cases hw : ResultC.isOk w <;>
      simp [OkHasInstance, hasInstanceHook, methodIsOk, jsOr, truthy, hw, bind,
        Except.bind, typeofIsObject]
  · by_cases hw : ResultC.isErr w = true
    · have hraw := isErrRaw_truthy w hw
      simp [ErrHasInstance, hasInstanceHook, methodIsErr, jsOr, truthy, hraw, hw,
        bind, Except.bind, typeofIsObject]
    · have hw' : ResultC.isErr w = false := by simpa using hw
      have ht : truthy (ResultC.isErrRaw w) = ResultC.isErr w := rfl
      simp [ErrHasInstance, hasInstanceHook, methodIsErr, jsOr, ht, hw', bind,
        Except.bind, typeofIsObject]
  · cases hw : OptionC.isSome w <;>
      simp [SomeHasInstance, hasInstanceHook, methodIsSome, jsOr, truthy, hw, bind,
        Except.bind, typeofIsObject]
  · cases hw : OptionC.isNone w <;>
      simp [NoneHasInstance, hasInstanceHook, methodIsNone, jsOr, truthy, hw, bind,
        Except.bind, typeofIsObject]

/-- Claim C4 witness: instantiated at the primitive candidate `3` (and the
contained value `5` for the container cases). -/
theorem claim_C4_witness :
    typeofIsObject (vNum 3) = false ∧
      (OkHasInstance (vNum 3) = Except.ok (vBool false) ∧
       ErrHasInstance (vNum 3) = Except.ok (vBool false) ∧
       SomeHasInstance (vNum 3) = Except.ok (vBool false) ∧
       NoneHasInstance (vNum 3) = Except.ok (vBool false) ∧
       OkHasInstance vNull = Except.ok (vBool false) ∧
       ErrHasInstance vNull = Except.ok (vBool false) ∧
       SomeHasInstance vNull = Except.ok (vBool false) ∧
       NoneHasInstance vNull = Except.ok (vBool false) ∧
       OkHasInstance (vResult (vNum 5)) = Except.ok (vBool (ResultC.isOk (vNum 5))) ∧
       ErrHasInstance (vResult (vNum 5)) = Except.ok (vBool (ResultC.isErr (vNum 5))) ∧
       SomeHasInstance (vOption (vNum 5)) = Except.ok (vBool (OptionC.isSome (vNum 5))) ∧
       NoneHasInstance (vOption (vNum 5)) = Except.ok (vBool (OptionC.isNone (vNum 5))) ∧
       OkHasInstance (vOption (vNum 5)) =
         Except.error (newError "instance.isOk is not a function") ∧
       OkHasInstance (vObj ⟨false, false⟩ "") =
         Except.error (newError "instance.isOk is not a function")) :=
  ⟨by decide, claim_C4_membership_hooks (vNum 3) (vNum 5) (by decide)⟩

/-- Claim C9 counterexample: `map` on a failure-classified Result executes
`return this` — with receiver identity 0 and the unused fresh identity 1,
the returned container is the receiver itself, not a fresh container. -/
theorem claim_C9_counterexample :
    mapIdR ⟨0, newError "e"⟩ (fun x => x) 1 = ⟨0, newError "e"⟩ ∧ (0 : Nat) ≠ 1 :=
  ⟨rfl, by decide⟩

/-- Claim C9 (amended): no operation mutates a contained value of a container
(every method only reads the receiver), but a combinator does not always
return a fresh container: it returns either a newly allocated container
(`map`/`mapErr` on the transformed side, `ok` and `okOr` always) or an
already existing container unchanged — the receiver (`map` on a failure,
`mapErr` on a success, `or` on a success/present receiver) or the supplied
argument (`or` otherwise); the returned contained value always agrees with
the uninstrumented combinator. -/
theorem claim_C9_freshness (self alt : CRef) (fn : JSVal → JSVal) (err : JSVal)
    (fresh : Nat) :
    (mapIdR self fn fresh = self ∨ (mapIdR self fn fresh).id = fresh) ∧
    (mapErrIdR self fn fresh = self ∨ (mapErrIdR self fn fresh).id = fresh) ∧
    (orIdR self alt = self ∨ orIdR self alt = alt) ∧
    (okIdR self fresh).id = fresh ∧
    (mapIdO self fn fresh = self ∨ (mapIdO self fn fresh).id = fresh) ∧
    (orIdO self alt = self ∨ orIdO self alt = alt) ∧
    (okOrIdO self err fresh).id = fresh ∧
    Except.ok (vResult (mapIdR self fn fresh).val) = ResultC.map self.val fn ∧
    Except.ok (vResult (mapErrIdR self fn fresh).val) = ResultC.mapErr self.val fn ∧
    Except.ok (vOption (mapIdO self fn fresh).val) = OptionC.map self.val fn ∧
    Except.ok (vResult (okOrIdO self err fresh).val) = OptionC.okOr self.val err := by
  refine ⟨?_, ?_, ?_, ?_, ?_, ?_, ?_, ?_, ?_, ?_, ?_⟩ <;>
    first
      | (by_cases h : ResultC.isOk self.val = true <;>
          simp [mapIdR, mapErrIdR, orIdR, okIdR, ResultC.map, ResultC.mapErr, h])
      | (by_cases h : OptionC.isSome self.val = true <;>
          simp [mapIdO, orIdO, okOrIdO, OptionC.map, OptionC.okOr, OkF, ErrF, h])
